import Mathlib

/-!
Shallow embedding of the anncsu-update-action reconciliation core
(src/main_with_cli.py and src/geodiff_models.py), together with theorems
settling the frozen claims about it.

Conventions of the embedding:
* Python ints are Int, Python floats are Rat, Python str is String.
* A value of type Option A models a Python expression of type A or None;
  in a result position, none models an exception that the source code does
  not catch at that point (a raised ValueError escaping the function).
* The injected collaborators of the source (the geometry decode pipeline,
  the ANNCSU SDK lookup, the CLI runner) are passed as functions; every
  invocation of one of them is recorded in an event trace so that theorems
  can speak about which collaborators a code path reaches.
* The logger collaborator carries no decision-relevant state and is not
  modelled; log text is outside the embedding.
-/

namespace Anncsu

/-- Primitive column value of a geodiff change record, mirroring the pydantic
union Primitive = int, float, str, bool or None (None is modelled by Option). -/
inductive Prim where
  | pInt (n : Int)
  | pFloat (q : Rat)
  | pStr (s : String)
  | pBool (b : Bool)
deriving DecidableEq

/-- Python truthiness of a primitive value: zero, the empty string and False
are falsy, everything else is truthy. -/
def Prim.truthy : Prim → Bool
  | .pInt n => n != 0
  | .pFloat q => q != 0
  | .pStr s => s != ""
  | .pBool b => b

/-- Embedding of the Python expression a or b on optional primitives: the
first operand when it is present and truthy, otherwise the second operand. -/
def pyOr (a b : Option Prim) : Option Prim :=
  match a with
  | some v => if v.truthy then some v else b
  | none => b

/-- Helper of the string-to-integer conversion: read a digit string left to
right into an accumulator, failing on the first non-digit character. -/
def readDigits : List Char → Nat → Option Nat
  | [], acc => some acc
  | c :: cs, acc =>
    if c.isDigit then readDigits cs (acc * 10 + (c.toNat - 48)) else none

/-- Embedding of the Python int() conversion on a string: an optional minus
sign followed by at least one digit; none models a raised ValueError. -/
def strToIntPy (s : String) : Option Int :=
  match s.data with
  | [] => none
  | '-' :: c :: cs =>
    if c.isDigit then (readDigits (c :: cs) 0).map (fun n => -(n : Int)) else none
  | c :: cs =>
    if c.isDigit then (readDigits (c :: cs) 0).map (fun n => (n : Int)) else none

/-- Embedding of the Python int() conversion on a primitive; none models a
raised ValueError (for a string that does not parse as an integer). Floats
truncate toward zero, booleans map to 0 and 1. -/
def Prim.toIntPy : Prim → Option Int
  | .pInt n => some n
  | .pFloat q => some (if q < 0 then -((-q).floor) else q.floor)
  | .pStr s => strToIntPy s
  | .pBool b => some (if b then 1 else 0)

/-- Embedding of the Python str() conversion on a primitive. -/
def Prim.toStrPy : Prim → String
  | .pInt n => toString n
  | .pFloat q => toString q
  | .pStr s => s
  | .pBool b => if b then "True" else "False"

/-- One column-level change of a geodiff entry (class Change in
geodiff_models.py): a column index and optional old and new values. -/
structure Change where
  column : Int
  old : Option Prim := none
  new : Option Prim := none
deriving DecidableEq

/-- One row-level change entry of a geodiff report (class GeodiffEntry).
The type field is kept as an open string because process_entry has a
defensive branch for unknown action strings. -/
structure GeodiffEntry where
  table : String
  type : String
  changes : List Change
deriving DecidableEq

/-- A parsed geodiff report (class GeodiffFile): the ordered entry list. -/
structure GeodiffFile where
  geodiff : List GeodiffEntry
deriving DecidableEq

/-- Column index of the primary identifier (PROGRESSIVO_ACCESSO). -/
def COLUMN_ADDRESS_ID : Int := 0

/-- Column index of the encoded geometry payload. -/
def COLUMN_GEOMETRY : Int := 1

/-- Column index of the secondary road identifier (PROGRESSIVO_NAZIONALE). -/
def COLUMN_ROAD_ID : Int := 2

/-- Decoded point location (dataclass Coordinates). -/
structure Coordinates where
  x : Rat
  y : Rat
deriving DecidableEq

/-- Result of processing one entry (dataclass EntryResult). -/
structure EntryResult where
  entry_type : String
  success : Bool
  error_message : Option String := none
deriving DecidableEq

/-- The slice of the application settings the core reads. -/
structure Settings where
  codice_comune : String
  coordinate_distance_threshold : Rat
deriving DecidableEq

/-- One record returned by the ANNCSU registry lookup: optional stored
coordinates and the dug field (which process_entry decodes as geometry). -/
structure AnncsuRecord where
  coord_x : Option Rat
  coord_y : Option Rat
  dug : String
deriving DecidableEq

/-- Response of the ANNCSU registry lookup: a status string, a message and
the list of matching records. -/
structure AnncsuResponse where
  res : String
  message : String
  data : List AnncsuRecord
deriving DecidableEq

/-- Result of one CLI runner invocation: exit code and captured output. -/
structure CliResult where
  exit_code : Int
  output : String
deriving DecidableEq

/-- Observable collaborator invocations performed by the core: a run of the
geometry decode pipeline on an encoded payload, a registry lookup by key,
and a CLI invocation with its argument list. -/
inductive Event where
  | decodeCall (gpkg : String)
  | lookupCall (prognaz : String)
  | cliCall (args : List String)
deriving DecidableEq

/-- Accumulator of the extraction loop in extract_entry_data. -/
structure ExtractState where
  address_id : Option Int := none
  road_id : Option Int := none
  gpkg_geom : Option String := none
deriving DecidableEq

/-- One iteration of the loop in extract_entry_data: dispatch on the column
index, resolve the value with the Python expression change.new or change.old,
and convert with int() or str(); none models the uncaught ValueError that
int() raises on a non-numeric string. -/
def applyChange (st : ExtractState) (c : Change) : Option ExtractState :=
  if c.column = COLUMN_ADDRESS_ID then
    match pyOr c.new c.old with
    | none => some { st with address_id := none }
    | some v => v.toIntPy.map fun n => { st with address_id := some n }
  else if c.column = COLUMN_GEOMETRY then
    match pyOr c.new c.old with
    | none => some { st with gpkg_geom := none }
    | some v => some { st with gpkg_geom := some v.toStrPy }
  else if c.column = COLUMN_ROAD_ID then
    match pyOr c.new c.old with
    | none => some { st with road_id := none }
    | some v => v.toIntPy.map fun n => { st with road_id := some n }
  else
    some st

/-- Embedding of extract_entry_data: scan the change list once, last write
wins per column; returns the optional address id, road id and geometry
string, or none when an int() conversion raises. -/
def extract_entry_data (entry : GeodiffEntry) :
    Option (Option Int × Option Int × Option String) :=
  (entry.changes.foldlM applyChange {}).map fun st =>
    (st.address_id, st.road_id, st.gpkg_geom)

/-- Embedding of the Python abs() builtin on a rational number. -/
def ratAbs (q : Rat) : Rat :=
  if q < 0 then -q else q

/-- The tolerance test of process_entry: both per-axis absolute differences
strictly below the configured threshold. -/
def coordsWithinThreshold (threshold : Rat) (a : Coordinates) (cx cy : Rat) : Bool :=
  decide (ratAbs (a.x - cx) < threshold) && decide (ratAbs (a.y - cy) < threshold)

/-- Argument list of the coordinate-update CLI command built by process_entry.
The progr-civico argument mirrors the Python truthiness conditional
str(address_id) if address_id else the empty string. -/
def cliUpdateArgs (settings : Settings) (address_id : Int) (coords : Coordinates) :
    List String :=
  ["coordinate", "update",
   "--codcom", settings.codice_comune,
   "--progr-civico", if address_id = 0 then "" else toString address_id,
   "--x", toString coords.x,
   "--y", toString coords.y,
   "--metodo", "4"]

/-- Embedding of process_entry. The collaborators are the geometry decode
pipeline (parse_gpkg_to_coordinates; none models a raised ValueError), the
registry lookup keyed by the formatted address id, and the CLI runner.
Returns the boolean outcome (none when an exception escapes, as happens for
a decode failure of the dug field of the registry record) together with the
trace of collaborator invocations in order. -/
def process_entry (settings : Settings)
    (geodecode : String → Option Coordinates)
    (lookup : String → AnncsuResponse)
    (cli : List String → CliResult)
    (entry : GeodiffEntry) : Option Bool × List Event :=
  match extract_entry_data entry with
  | none => (none, [])
  | some (addrOpt, _roadOpt, geomOpt) =>
    match addrOpt with
    | none => (some false, [])
    | some address_id =>
      match geomOpt with
      | none => (some false, [])
      | some g =>
        if g = "" then (some false, [])
        else
          match geodecode g with
          | none => (some false, [Event.decodeCall g])
          | some coords =>
            if entry.type = "insert" ∧ address_id < 0 then
              (some false, [Event.decodeCall g])
            else if entry.type = "insert" ∨ entry.type = "update" then
              let key := toString address_id
              let resp := lookup key
              let ev0 := [Event.decodeCall g, Event.lookupCall key]
              if resp.res ≠ "OK" then (some false, ev0)
              else
                match resp.data with
                | [] => (some false, ev0)
                | [record] =>
                  match record.coord_x, record.coord_y with
                  | some cx, some cy =>
                    let ev1 := ev0 ++ [Event.decodeCall record.dug]
                    match geodecode record.dug with
                    | none => (none, ev1)
                    | some ac =>
                      if coordsWithinThreshold settings.coordinate_distance_threshold
                          ac cx cy then
                        (some true, ev1)
                      else
                        let args := cliUpdateArgs settings address_id coords
                        let r := cli args
                        (some (r.exit_code == 0), ev1 ++ [Event.cliCall args])
                  | _, _ =>
                    let args := cliUpdateArgs settings address_id coords
                    let r := cli args
                    (some (r.exit_code == 0), ev0 ++ [Event.cliCall args])
                | _ :: _ :: _ => (some false, ev0)
            else if entry.type = "delete" then
              (some true, [Event.decodeCall g])
            else
              (some false, [Event.decodeCall g])

/-- Embedding of process_all_entries: process the entries in order, one
EntryResult per entry; none models an exception escaping from some entry,
which aborts the whole loop. -/
def process_all_entries (settings : Settings)
    (geodecode : String → Option Coordinates)
    (lookup : String → AnncsuResponse)
    (cli : List String → CliResult) :
    List GeodiffEntry → Option (List EntryResult) × List Event
  | [] => (some [], [])
  | entry :: rest =>
    match process_entry settings geodecode lookup cli entry with
    | (none, ev) => (none, ev)
    | (some b, ev) =>
      match process_all_entries settings geodecode lookup cli rest with
      | (none, ev2) => (none, ev ++ ev2)
      | (some rs, ev2) =>
        (some ({ entry_type := entry.type, success := b } :: rs), ev ++ ev2)

/-- Embedding of load_geodiff_report. The filesystem is injected: pathExists
tells whether the source string denotes an existing path, readText returns
its contents (none models a read error), parseReport models parsing a text
as a geodiff report (none models a parse or validation error). The whole
path branch of the source sits in one try block whose handler falls through,
so a read or parse error on an existing path continues with text parsing. -/
def load_geodiff_report (pathExists : String → Bool)
    (readText : String → Option String)
    (parseReport : String → Option GeodiffFile)
    (source : String) : Option GeodiffFile :=
  if pathExists source then
    match readText source with
    | some text =>
      match parseReport text with
      | some report => some report
      | none => parseReport source
    | none => parseReport source
  else
    parseReport source

/-- Loader following the words of the specification instead of the source:
any read or parse error on a path that does exist is a hard failure and
never falls back to parsing the source string itself as report text, while
a source that does not exist as a path falls through to text parsing. Used
only to compare the source behaviour against the specified one. -/
def load_geodiff_report_specified (pathExists : String → Bool)
    (readText : String → Option String)
    (parseReport : String → Option GeodiffFile)
    (source : String) : Option GeodiffFile :=
  if pathExists source then (readText source).bind parseReport
  else parseReport source

/-- Argument list of the CLI authentication command. -/
def authArgs (api_type : String) : List String :=
  ["auth", "login", "--api", api_type]

/-- Embedding of authenticate_cli: invoke the auth command and succeed
exactly when the exit code is zero. -/
def authenticate_cli (cli : List String → CliResult) (api_type : String) :
    Bool × List Event :=
  let r := cli (authArgs api_type)
  (r.exit_code == 0, [Event.cliCall (authArgs api_type)])

/-- Embedding of run_action: load the report (failure is fatal, nothing else
runs), authenticate the CLI (failure is fatal), then process all entries and
return the conjunction of the per-entry successes; none models an exception
escaping from entry processing. -/
def run_action (settings : Settings)
    (geodecode : String → Option Coordinates)
    (lookup : String → AnncsuResponse)
    (cli : List String → CliResult)
    (pathExists : String → Bool)
    (readText : String → Option String)
    (parseReport : String → Option GeodiffFile)
    (geodiff_report : String)
    (api_type : String) : Option Bool × List Event :=
  match load_geodiff_report pathExists readText parseReport geodiff_report with
  | none => (some false, [])
  | some report =>
    let auth := authenticate_cli cli api_type
    if auth.1 then
      match process_all_entries settings geodecode lookup cli report.geodiff with
      | (none, ev) => (none, auth.2 ++ ev)
      | (some results, ev) => (some (results.all (·.success)), auth.2 ++ ev)
    else (some false, auth.2)

/-!
Concrete collaborator instances and entries used by closed evaluations of
the embedding (witnesses and counterexamples below).
-/

/-- Settings fixture with the threshold of one hundred-thousandth. -/
def settings0 : Settings :=
  { codice_comune := "I501", coordinate_distance_threshold := 1/100000 }

/-- Settings fixture with threshold one, keeping witness arithmetic simple. -/
def settingsThr1 : Settings :=
  { codice_comune := "I501", coordinate_distance_threshold := 1 }

/-- CLI runner fixture that always succeeds. -/
def cliOk : List String → CliResult := fun _ => { exit_code := 0, output := "OK" }

/-- Registry lookup fixture returning an OK response with no records. -/
def lookupEmpty : String → AnncsuResponse :=
  fun _ => { res := "OK", message := "", data := [] }

/-- Geometry decoder fixture that always fails. -/
def geodecodeNone : String → Option Coordinates := fun _ => none

/-- Geometry decoder fixture returning one fixed point. -/
def geodecodePt : String → Option Coordinates := fun _ => some { x := 12, y := 56 }

/-- Delete entry carrying an identifier but no geometry column. -/
def entryDeleteNoGeom : GeodiffEntry :=
  { table := "simple", type := "delete",
    changes := [{ column := 0, old := some (Prim.pInt 2), new := none }] }

/-- Delete entry carrying an identifier and a geometry payload. -/
def entryDeleteGeom : GeodiffEntry :=
  { table := "simple", type := "delete",
    changes := [{ column := 0, old := some (Prim.pInt 2), new := none },
                { column := 1, old := some (Prim.pStr "R1AA"), new := none }] }

/-- Update entry whose identifier column has old 5 and new 0 both set. -/
def entryNewZero : GeodiffEntry :=
  { table := "t", type := "update",
    changes := [{ column := 0, old := some (Prim.pInt 5), new := some (Prim.pInt 0) }] }

/-- Update entry with identifier 1 and geometry payload g. -/
def entryUpd1 : GeodiffEntry :=
  { table := "t", type := "update",
    changes := [{ column := 0, old := some (Prim.pInt 1), new := none },
                { column := 1, old := none, new := some (Prim.pStr "g") }] }

/-- Update entry with identifier 0 and geometry payload g. -/
def entryUpd0 : GeodiffEntry :=
  { table := "t", type := "update",
    changes := [{ column := 0, old := some (Prim.pInt 0), new := none },
                { column := 1, old := none, new := some (Prim.pStr "g") }] }

/-- Update entry whose geometry column resolves to an empty string. -/
def entryEmptyGeom : GeodiffEntry :=
  { table := "t", type := "update",
    changes := [{ column := 0, old := some (Prim.pInt 2), new := none },
                { column := 1, old := some (Prim.pStr ""), new := none }] }

/-- Update entry whose identifier column holds a non-numeric string, making
the int() conversion raise. -/
def entryCrash : GeodiffEntry :=
  { table := "t", type := "update",
    changes := [{ column := 0, old := some (Prim.pStr "abc"), new := none }] }

/-- Decoder mapping the entry payload g to the point one-one and the dug
payload d of the registry record to the distant point five-five. -/
def geodecodeC3 : String → Option Coordinates := fun s =>
  if s = "g" then some { x := 1, y := 1 }
  else if s = "d" then some { x := 5, y := 5 } else none

/-- Lookup returning one record whose stored coordinate is one-one and whose
dug field is d. -/
def lookupC3 : String → AnncsuResponse := fun _ =>
  { res := "OK", message := "",
    data := [{ coord_x := some 1, coord_y := some 1, dug := "d" }] }

/-- Decoder mapping g to the point one-one and d to the point one-zero. -/
def geodecodeC5 : String → Option Coordinates := fun s =>
  if s = "g" then some { x := 1, y := 1 }
  else if s = "d" then some { x := 1, y := 0 } else none

/-- Lookup returning one record with stored coordinate zero-zero and dug d. -/
def lookupC5 : String → AnncsuResponse := fun _ =>
  { res := "OK", message := "",
    data := [{ coord_x := some 0, coord_y := some 0, dug := "d" }] }

/-- Lookup returning two records for every key. -/
def lookupTwo : String → AnncsuResponse := fun _ =>
  { res := "OK", message := "",
    data := [{ coord_x := some 0, coord_y := some 0, dug := "d" },
             { coord_x := some 0, coord_y := some 0, dug := "d" }] }

/-- Lookup returning one record without stored coordinates. -/
def lookupNoCoords : String → AnncsuResponse := fun _ =>
  { res := "OK", message := "", data := [{ coord_x := none, coord_y := none, dug := "d" }] }

/-- Entry with a single column change, used to state the field resolution
behaviour of the extractor. -/
def singleChangeEntry (tb ty : String) (col : Int) (o n : Option Prim) : GeodiffEntry :=
  { table := tb, type := ty, changes := [{ column := col, old := o, new := n }] }

/-- Filesystem fixture where no path exists. -/
def fsNone : String → Bool := fun _ => false

/-- File reader fixture where every read fails. -/
def readNone : String → Option String := fun _ => none

/-- Report parser fixture where the text r parses to a one-entry report
whose single entry raises during extraction. -/
def parseReportCrash : String → Option GeodiffFile := fun s =>
  if s = "r" then some { geodiff := [entryCrash] } else none

/-- Report parser fixture where the text e parses to an empty report. -/
def parseReportEmpty : String → Option GeodiffFile := fun s =>
  if s = "e" then some { geodiff := [] } else none

/-- Filesystem fixture where exactly the path p exists. -/
def fsExistsP : String → Bool := fun s => s == "p"

/-- File reader fixture where the path p holds unparsable text. -/
def readTextP : String → Option String := fun s =>
  if s = "p" then some "garbage" else none

/-- Report parser fixture where the source string p itself parses to an
empty report while the file contents do not parse. -/
def parseReportP : String → Option GeodiffFile := fun s =>
  if s = "p" then some { geodiff := [] } else none

/-!
Helper lemmas shared by the claim theorems.
-/

/-- The executable embedding of abs agrees with the mathematical absolute value. -/
theorem ratAbs_eq_abs (q : Rat) : ratAbs q = |q| := by
  rcases lt_or_ge q 0 with h | h
  · rw [ratAbs, if_pos h, abs_of_neg h]
  · rw [ratAbs, if_neg (not_lt.mpr h), abs_of_nonneg h]

/-- When entry processing completes, the result list mirrors the entry list:
the entry kinds of the results are exactly the entry types, in order. -/
theorem process_all_entries_types (settings : Settings)
    (geodecode : String → Option Coordinates) (lookup : String → AnncsuResponse)
    (cli : List String → CliResult) :
    ∀ (entries : List GeodiffEntry) (results : List EntryResult),
      (process_all_entries settings geodecode lookup cli entries).1 = some results →
      results.map (·.entry_type) = entries.map (·.type) := by
  intro entries
  induction entries with
  | nil =>
    intro results h
    simp [process_all_entries] at h
    simp [← h]
  | cons e rest ih =>
    intro results h
    rw [process_all_entries] at h
    rcases hpe : process_entry settings geodecode lookup cli e with ⟨b, ev⟩
    rw [hpe] at h
    cases b with
    | none => simp at h
    | some b =>
      rcases hrest : process_all_entries settings geodecode lookup cli rest with ⟨rs, ev2⟩
      rw [hrest] at h
      cases rs with
      | none => simp at h
      | some rs =>
        simp at h
        have := ih rs (by rw [hrest])
        simp [← h, this]

/-!
Claim theorems.
-/

/-- C1 (amended): process_entry treats a delete entry as a no-op success only
when its extracted identifier is present and its geometry field is present,
nonempty and decodable; in that case the only collaborator invoked is the
geometry decoder, never the registry lookup or the command executor. A delete
entry whose geometry field is absent yields a failed outcome instead. -/
theorem C1_delete_noop_needs_geometry (settings : Settings)
    (geodecode : String → Option Coordinates) (lookup : String → AnncsuResponse)
    (cli : List String → CliResult) (entry : GeodiffEntry) (a : Int) (r : Option Int)
    (htype : entry.type = "delete") :
    (∀ g c, extract_entry_data entry = some (some a, r, some g) → g ≠ "" →
      geodecode g = some c →
      process_entry settings geodecode lookup cli entry =
        (some true, [Event.decodeCall g])) ∧
    (extract_entry_data entry = some (some a, r, none) →
      process_entry settings geodecode lookup cli entry = (some false, [])) := by
  constructor
  · intro g c hex hg hdec
    simp [process_entry, hex, hg, hdec, htype]
  · intro hex
    simp [process_entry, hex]

/-- C1 counterexample: a delete entry whose identifier is present but whose
geometry field is absent is reported by process_entry as a failure with no
collaborator invoked, not as a successful no-op as the claim states. -/
theorem C1_counterexample :
    process_entry settings0 geodecodeNone lookupEmpty cliOk entryDeleteNoGeom =
      (some false, []) := by decide

/-- C1 witness: the amended statement evaluated on a concrete delete entry
with identifier 2 and decodable geometry. -/
theorem C1_witness :
    process_entry settings0 geodecodePt lookupEmpty cliOk entryDeleteGeom =
      (some true, [Event.decodeCall "R1AA"]) :=
  (C1_delete_noop_needs_geometry settings0 geodecodePt lookupEmpty cliOk entryDeleteGeom
      2 none rfl).1 "R1AA" { x := 12, y := 56 } (by decide) (by decide) rfl

/-- C2 counterexample: on the identifier column with old 5 and new 0 both
set, the extractor resolves to the old value 5 because the source resolves
with Python truthiness rather than presence; the claim predicts the new
value 0. -/
theorem C2_counterexample :
    extract_entry_data entryNewZero = some (some 5, none, none) ∧
    extract_entry_data entryNewZero ≠ some (some 0, none, none) := by decide

/-- C2 (amended): at the well-known columns the extractor resolves a change
with both old and new set to the new value exactly when the new value is
truthy; when the new value is set but falsy, and when new is absent, it
resolves to the old value. -/
theorem C2_new_or_old_resolution (tb ty : String) (v u w : Prim) (n m : Int)
    (hv : v.truthy = true) (hu : u.truthy = false)
    (hn : v.toIntPy = some n) (hm : w.toIntPy = some m) :
    (extract_entry_data (singleChangeEntry tb ty 0 (some w) (some v)) =
        some (some n, none, none) ∧
     extract_entry_data (singleChangeEntry tb ty 1 (some w) (some v)) =
        some (none, none, some v.toStrPy) ∧
     extract_entry_data (singleChangeEntry tb ty 2 (some w) (some v)) =
        some (none, some n, none)) ∧
    (extract_entry_data (singleChangeEntry tb ty 0 (some w) (some u)) =
        some (some m, none, none) ∧
     extract_entry_data (singleChangeEntry tb ty 1 (some w) (some u)) =
        some (none, none, some w.toStrPy) ∧
     extract_entry_data (singleChangeEntry tb ty 2 (some w) (some u)) =
        some (none, some m, none)) ∧
    (extract_entry_data (singleChangeEntry tb ty 0 (some w) none) =
        some (some m, none, none) ∧
     extract_entry_data (singleChangeEntry tb ty 1 (some w) none) =
        some (none, none, some w.toStrPy) ∧
     extract_entry_data (singleChangeEntry tb ty 2 (some w) none) =
        some (none, some m, none)) := by
  refine ⟨⟨?_, ?_, ?_⟩, ⟨?_, ?_, ?_⟩, ⟨?_, ?_, ?_⟩⟩ <;>
    simp [extract_entry_data, singleChangeEntry, List.foldlM, applyChange, pyOr,
      COLUMN_ADDRESS_ID, COLUMN_GEOMETRY, COLUMN_ROAD_ID, hv, hu, hn, hm]

/-- C2 witness: the amended resolution evaluated on the identifier column
with old 5 and truthy new 7, resolving to 7. -/
theorem C2_witness :
    extract_entry_data
        (singleChangeEntry "t" "update" 0 (some (Prim.pInt 5)) (some (Prim.pInt 7))) =
      some (some 7, none, none) :=
  (C2_new_or_old_resolution "t" "update" (Prim.pInt 7) (Prim.pInt 0) (Prim.pInt 5) 7 5
      (by decide) (by decide) (by decide) (by decide)).1.1

/-- C9: when the geometry column of an entry resolves to a present but empty
string, process_entry reports failure through the no-geometry branch and
invokes no collaborator at all: no geometry decode, no registry lookup, no
CLI command. -/
theorem C9_empty_geometry_entry_fails (settings : Settings)
    (geodecode : String → Option Coordinates) (lookup : String → AnncsuResponse)
    (cli : List String → CliResult) (entry : GeodiffEntry) (a : Int) (r : Option Int)
    (hex : extract_entry_data entry = some (some a, r, some "")) :
    process_entry settings geodecode lookup cli entry = (some false, []) := by
  simp [process_entry, hex]

/-- C9 witness: the statement evaluated on a concrete update entry whose
geometry column carries the empty string. -/
theorem C9_witness :
    process_entry settings0 geodecodePt lookupEmpty cliOk entryEmptyGeom =
      (some false, []) :=
  C9_empty_geometry_entry_fails settings0 geodecodePt lookupEmpty cliOk entryEmptyGeom
    2 none (by decide)

/-- C4 counterexample: the source p denotes an existing path whose contents
fail to parse, yet load_geodiff_report falls back to parsing the source
string itself as report text and returns the report parsed from it, while
the hard-failure loader that the claim describes returns nothing. -/
theorem C4_counterexample :
    load_geodiff_report fsExistsP readTextP parseReportP "p" = some { geodiff := [] } ∧
    load_geodiff_report_specified fsExistsP readTextP parseReportP "p" = none := by decide

/-- C4 (amended): when the source denotes an existing path, load_geodiff_report
reads and parses that file and returns the parsed report on success; a read
or parse error on the existing path is caught and falls through to parsing
the source string itself as report text, exactly as for a source that does
not exist as a path. -/
theorem C4_load_fallback (pathExists : String → Bool)
    (readText : String → Option String) (parseReport : String → Option GeodiffFile)
    (source : String) :
    (∀ text report, pathExists source = true → readText source = some text →
      parseReport text = some report →
      load_geodiff_report pathExists readText parseReport source = some report) ∧
    (pathExists source = true → readText source = none →
      load_geodiff_report pathExists readText parseReport source = parseReport source) ∧
    (∀ text, pathExists source = true → readText source = some text →
      parseReport text = none →
      load_geodiff_report pathExists readText parseReport source = parseReport source) ∧
    (pathExists source = false →
      load_geodiff_report pathExists readText parseReport source = parseReport source) := by
  refine ⟨?_, ?_, ?_, ?_⟩
  · intro text report h1 h2 h3
    simp [load_geodiff_report, h1, h2, h3]
  · intro h1 h2
    simp [load_geodiff_report, h1, h2]
  · intro text h1 h2 h3
    simp [load_geodiff_report, h1, h2, h3]
  · intro h1
    simp [load_geodiff_report, h1]

/-- C4 witness: the amended statement evaluated on the concrete filesystem
where the path p exists with unparsable contents. -/
theorem C4_witness :
    load_geodiff_report fsExistsP readTextP parseReportP "p" = parseReportP "p" :=
  (C4_load_fallback fsExistsP readTextP parseReportP "p").2.2.1 "garbage"
    (by decide) (by decide) (by decide)

/-- C10 counterexample: on a parsed one-entry report whose entry carries a
non-numeric identifier string, processing aborts with an uncaught conversion
error and process_all_entries yields no result list at all, instead of the
one-result list the claim promises. -/
theorem C10_counterexample :
    (process_all_entries settings0 geodecodeNone lookupEmpty cliOk [entryCrash]).1 =
      none := by decide

/-- C10 (amended): whenever processing completes without an uncaught error,
process_all_entries returns exactly one EntryResult per entry, in report
order, and each result records the kind of its entry. -/
theorem C10_results_align (settings : Settings)
    (geodecode : String → Option Coordinates) (lookup : String → AnncsuResponse)
    (cli : List String → CliResult) (entries : List GeodiffEntry)
    (results : List EntryResult)
    (h : (process_all_entries settings geodecode lookup cli entries).1 = some results) :
    results.length = entries.length ∧
    results.map (·.entry_type) = entries.map (·.type) := by
  have hmap := process_all_entries_types settings geodecode lookup cli entries results h
  refine ⟨?_, hmap⟩
  have hlen := congrArg List.length hmap
  simpa using hlen

/-- C10 witness: the amended statement evaluated on a one-entry report that
processes to completion. -/
theorem C10_witness :
    ([({ entry_type := "delete", success := true } : EntryResult)]).length =
        [entryDeleteGeom].length ∧
    ([({ entry_type := "delete", success := true } : EntryResult)]).map (·.entry_type) =
        [entryDeleteGeom].map (·.type) :=
  C10_results_align settings0 geodecodePt lookupEmpty cliOk [entryDeleteGeom]
    [{ entry_type := "delete", success := true }] (by decide)

/-- C7 counterexample: the report loads, authentication succeeds, but the
single entry raises an uncaught conversion error, so run_action produces no
boolean verdict at all instead of the conjunction of per-entry successes. -/
theorem C7_counterexample :
    (run_action settings0 geodecodeNone lookupEmpty cliOk fsNone readNone
        parseReportCrash "r" "pa").1 = none := by decide

/-- C7 (amended): a report-load failure makes run_action return false with no
collaborator invoked and no entry processed; when the report loads, the CLI
authentication succeeds and every entry completes without an uncaught error,
run_action processes the entries once each in report order and returns the
conjunction of the per-entry successes, so an empty entry list yields true. -/
theorem C7_run_action_aggregation (settings : Settings)
    (geodecode : String → Option Coordinates) (lookup : String → AnncsuResponse)
    (cli : List String → CliResult) (pathExists : String → Bool)
    (readText : String → Option String) (parseReport : String → Option GeodiffFile)
    (src api : String) :
    (load_geodiff_report pathExists readText parseReport src = none →
      run_action settings geodecode lookup cli pathExists readText parseReport src api =
        (some false, [])) ∧
    (∀ report results ev,
      load_geodiff_report pathExists readText parseReport src = some report →
      (cli (authArgs api)).exit_code = 0 →
      process_all_entries settings geodecode lookup cli report.geodiff =
        (some results, ev) →
      (run_action settings geodecode lookup cli pathExists readText parseReport
          src api).1 = some (results.all (·.success)) ∧
      results.map (·.entry_type) = report.geodiff.map (·.type)) ∧
    (∀ report,
      load_geodiff_report pathExists readText parseReport src = some report →
      report.geodiff = [] →
      (cli (authArgs api)).exit_code = 0 →
      (run_action settings geodecode lookup cli pathExists readText parseReport
          src api).1 = some true) := by
  refine ⟨?_, ?_, ?_⟩
  · intro h
    simp [run_action, h]
  · intro report results ev hload hauth hproc
    constructor
    · simp [run_action, hload, authenticate_cli, hauth, hproc]
    · exact process_all_entries_types settings geodecode lookup cli report.geodiff
        results (by rw [hproc])
  · intro report hload hempty hauth
    simp [run_action, hload, authenticate_cli, hauth, hempty, process_all_entries]

/-- C7 witness: the amended statement evaluated on an empty report with a
succeeding CLI, giving overall success. -/
theorem C7_witness :
    (run_action settings0 geodecodeNone lookupEmpty cliOk fsNone readNone
        parseReportEmpty "e" "pa").1 = some true :=
  (C7_run_action_aggregation settings0 geodecodeNone lookupEmpty cliOk fsNone readNone
      parseReportEmpty "e" "pa").2.2 { geodiff := [] } (by decide) rfl (by decide)

/-- C6: for an insert or update entry with a present extracted identifier
and decodable nonempty geometry, whenever the registry lookup response for
that identifier holds two or more records, process_entry reports a failed
outcome and the command executor is never invoked for the entry. -/
theorem C6_ambiguous_lookup_fails (settings : Settings)
    (geodecode : String → Option Coordinates) (lookup : String → AnncsuResponse)
    (cli : List String → CliResult) (entry : GeodiffEntry) (a : Int) (r : Option Int)
    (g : String) (c : Coordinates)
    (htype : entry.type = "insert" ∨ entry.type = "update")
    (hex : extract_entry_data entry = some (some a, r, some g))
    (hg : g ≠ "") (hc : geodecode g = some c)
    (hlen : 2 ≤ (lookup (toString a)).data.length) :
    (process_entry settings geodecode lookup cli entry).1 = some false ∧
    ∀ args, Event.cliCall args ∉ (process_entry settings geodecode lookup cli entry).2 := by
  obtain ⟨x, y, t, hdata⟩ : ∃ x y t, (lookup (toString a)).data = x :: y :: t := by
    rcases hd : (lookup (toString a)).data with _ | ⟨x, _ | ⟨y, t⟩⟩
    · rw [hd] at hlen; simp at hlen
    · rw [hd] at hlen; simp at hlen
    · exact ⟨x, y, t, rfl⟩
  have key : process_entry settings geodecode lookup cli entry =
        (some false, [Event.decodeCall g]) ∨
      process_entry settings geodecode lookup cli entry =
        (some false, [Event.decodeCall g, Event.lookupCall (toString a)]) := by
    rcases htype with h | h
    · by_cases ha : a < 0
      · left; simp [process_entry, hex, hg, hc, h, ha]
      · right
        by_cases hres : (lookup (toString a)).res = "OK" <;>
          simp [process_entry, hex, hg, hc, h, ha, hres, hdata]
    · right
      by_cases hres : (lookup (toString a)).res = "OK" <;>
        simp [process_entry, hex, hg, hc, h, hres, hdata]
  rcases key with hk | hk <;> rw [hk] <;> exact ⟨rfl, by intro args; simp⟩

/-- C6 witness: the statement evaluated on a concrete update entry whose
lookup returns two records. -/
theorem C6_witness :
    (process_entry settings0 geodecodeC5 lookupTwo cliOk entryUpd1).1 = some false ∧
    ∀ args, Event.cliCall args ∉
      (process_entry settings0 geodecodeC5 lookupTwo cliOk entryUpd1).2 :=
  C6_ambiguous_lookup_fails settings0 geodecodeC5 lookupTwo cliOk entryUpd1 1 none "g"
    { x := 1, y := 1 } (Or.inr rfl) (by decide) (by decide) (by decide) (by decide)

/-- C8: an insert or update entry whose extracted identifier is exactly
zero, with decodable nonempty geometry and a single registry record that
requires an update, makes process_entry invoke the coordinate-update command
whose progr-civico argument is the empty string rather than the string form
of zero, because the source guards the argument with a truthiness test on
the identifier. -/
theorem C8_zero_identifier_empty_argument (settings : Settings)
    (geodecode : String → Option Coordinates) (lookup : String → AnncsuResponse)
    (cli : List String → CliResult) (entry : GeodiffEntry) (r : Option Int)
    (g : String) (c : Coordinates) (record : AnncsuRecord)
    (htype : entry.type = "insert" ∨ entry.type = "update")
    (hex : extract_entry_data entry = some (some 0, r, some g))
    (hg : g ≠ "") (hc : geodecode g = some c)
    (hres : (lookup (toString (0:Int))).res = "OK")
    (hdata : (lookup (toString (0:Int))).data = [record])
    (hupd : record.coord_x = none ∨ record.coord_y = none ∨
      (∃ cx cy ac, record.coord_x = some cx ∧ record.coord_y = some cy ∧
        geodecode record.dug = some ac ∧
        coordsWithinThreshold settings.coordinate_distance_threshold ac cx cy = false)) :
    Event.cliCall (cliUpdateArgs settings 0 c) ∈
      (process_entry settings geodecode lookup cli entry).2 ∧
    cliUpdateArgs settings 0 c =
      ["coordinate", "update", "--codcom", settings.codice_comune,
       "--progr-civico", "", "--x", toString c.x, "--y", toString c.y,
       "--metodo", "4"] := by
  refine ⟨?_, by simp [cliUpdateArgs]⟩
  rcases htype with h | h <;>
  rcases hupd with hx | hy | ⟨cx, cy, ac, hx, hy, hdec, hfar⟩
  · rcases hy : record.coord_y with _ | cy <;>
      simp [process_entry, hex, hg, hc, h, hres, hdata, hx, hy]
  · rcases hx : record.coord_x with _ | cx <;>
      simp [process_entry, hex, hg, hc, h, hres, hdata, hx, hy]
  · simp [process_entry, hex, hg, hc, h, hres, hdata, hx, hy, hdec, hfar]
  · rcases hy : record.coord_y with _ | cy <;>
      simp [process_entry, hex, hg, hc, h, hres, hdata, hx, hy]
  · rcases hx : record.coord_x with _ | cx <;>
      simp [process_entry, hex, hg, hc, h, hres, hdata, hx, hy]
  · simp [process_entry, hex, hg, hc, h, hres, hdata, hx, hy, hdec, hfar]

/-- C8 witness: the statement evaluated on a concrete update entry with
identifier zero and a registry record without stored coordinates. -/
theorem C8_witness :
    Event.cliCall (cliUpdateArgs settings0 0 { x := 1, y := 1 }) ∈
      (process_entry settings0 geodecodeC5 lookupNoCoords cliOk entryUpd0).2 :=
  (C8_zero_identifier_empty_argument settings0 geodecodeC5 lookupNoCoords cliOk entryUpd0
      none "g" { x := 1, y := 1 } { coord_x := none, coord_y := none, dug := "d" }
      (Or.inr rfl) (by decide) (by decide) rfl (by decide) (by decide)
      (Or.inl rfl)).1

/-- C5: the tolerance comparison of process_entry is strict less-than on the
per-axis absolute difference: replacing an offset by its negation does not
change the test, a difference of exactly the threshold on either axis fails
the test, and in process_entry a registry record whose decoded geometry
differs from its stored x coordinate by exactly the threshold triggers the
coordinate-update command. -/
theorem C5_strict_threshold_comparison (settings : Settings)
    (geodecode : String → Option Coordinates) (lookup : String → AnncsuResponse)
    (cli : List String → CliResult) (entry : GeodiffEntry) (a : Int) (r : Option Int)
    (g : String) (c : Coordinates) (record : AnncsuRecord) (cx cy : Rat) (ac : Coordinates)
    (htype : entry.type = "update")
    (hex : extract_entry_data entry = some (some a, r, some g))
    (hg : g ≠ "") (hc : geodecode g = some c)
    (hres : (lookup (toString a)).res = "OK")
    (hdata : (lookup (toString a)).data = [record])
    (hx : record.coord_x = some cx) (hy : record.coord_y = some cy)
    (hdec : geodecode record.dug = some ac)
    (hdiff : ratAbs (ac.x - cx) = settings.coordinate_distance_threshold) :
    (∀ thr dX dY cx0 cy0,
      coordsWithinThreshold thr { x := cx0 + dX, y := cy0 + dY } cx0 cy0 =
        coordsWithinThreshold thr { x := cx0 - dX, y := cy0 - dY } cx0 cy0) ∧
    (∀ thr a0 cx0 cy0,
      coordsWithinThreshold thr { x := cx0 + thr, y := a0 } cx0 cy0 = false) ∧
    (∀ thr a0 cx0 cy0,
      coordsWithinThreshold thr { x := a0, y := cy0 + thr } cx0 cy0 = false) ∧
    Event.cliCall (cliUpdateArgs settings a c) ∈
      (process_entry settings geodecode lookup cli entry).2 := by
  refine ⟨?_, ?_, ?_, ?_⟩
  · intro thr dX dY cx0 cy0
    simp [coordsWithinThreshold, ratAbs_eq_abs, add_sub_cancel_left, sub_sub_cancel_left,
      abs_neg]
  · intro thr a0 cx0 cy0
    have h1 : ¬(|thr| < thr) := not_lt.mpr (le_abs_self thr)
    simp [coordsWithinThreshold, ratAbs_eq_abs, add_sub_cancel_left, h1]
  · intro thr a0 cx0 cy0
    have h1 : ¬(|thr| < thr) := not_lt.mpr (le_abs_self thr)
    simp [coordsWithinThreshold, ratAbs_eq_abs, add_sub_cancel_left, h1]
  · have hfar : coordsWithinThreshold settings.coordinate_distance_threshold ac cx cy =
        false := by
      simp [coordsWithinThreshold, hdiff, lt_irrefl]
    simp [process_entry, hex, hg, hc, htype, hres, hdata, hx, hy, hdec, hfar]

/-- Concrete arithmetic fact used by the C5 witness: the decoded x value one
differs from the stored x value zero by exactly the threshold one. -/
theorem ratAbs_diff_one :
    ratAbs (((1:Rat)) - 0) = settingsThr1.coordinate_distance_threshold := by
  norm_num [ratAbs, settingsThr1]

/-- C5 witness: a registry record stored at the origin whose decoded dug
geometry sits exactly one threshold away on the x axis triggers the
coordinate-update command. -/
theorem C5_witness :
    Event.cliCall (cliUpdateArgs settingsThr1 1 { x := 1, y := 1 }) ∈
      (process_entry settingsThr1 geodecodeC5 lookupC5 cliOk entryUpd1).2 :=
  (C5_strict_threshold_comparison settingsThr1 geodecodeC5 lookupC5 cliOk entryUpd1 1 none
      "g" { x := 1, y := 1 } { coord_x := some 0, coord_y := some 0, dug := "d" } 0 0
      { x := 1, y := 0 } rfl (by decide) (by decide) rfl (by decide) (by decide)
      rfl rfl rfl ratAbs_diff_one).2.2.2

/-- C3, the source evaluated at the failing input: the update entry decodes
to the point one-one and the single registry record stores exactly the
coordinate one-one, equal to the newly decoded coordinate, yet process_entry
invokes the coordinate-update command. The source compares the decoded dug
field of the registry record, here the distant point five-five, against the
stored coordinates of the same record, and never consults the entry
coordinates in the comparison, although its own comment says the update is
skipped when the coordinates are the same. -/
theorem C3_failing_input_eval :
    process_entry settings0 geodecodeC3 lookupC3 cliOk entryUpd1 =
      (some true,
       [Event.decodeCall "g", Event.lookupCall "1", Event.decodeCall "d",
        Event.cliCall (cliUpdateArgs settings0 1 { x := 1, y := 1 })]) := by
  have hex : extract_entry_data entryUpd1 = some (some 1, none, some "g") := by decide
  have htyp : entryUpd1.type = "update" := rfl
  have hts : toString (1:Int) = "1" := by decide
  have hfar : coordsWithinThreshold settings0.coordinate_distance_threshold
      { x := 5, y := 5 } 1 1 = false := by
    norm_num [coordsWithinThreshold, ratAbs, settings0]
  simp [process_entry, hex, htyp, hts, geodecodeC3, lookupC3, cliOk, hfar]

end Anncsu
